import Mathlib

/-!
Verification development for the TransLogistics AI Engine service scaffold
(`services/ai-engine/app`): environment-driven configuration (`config.py`),
structured logging setup (`utils/logger.py`) and the health/liveness/readiness
probes (`routers/health.py`), shallowly embedded in Lean.

Conventions of the embedding:
* Python floats are modelled as rationals (`Rat`); `time.time()` values are
  rational parameters `now`, `startTime`.
* The process environment is a record of optional strings (one per declared
  Settings field), mirroring what pydantic `BaseSettings` reads.
* `functools.lru_cache` on a zero-argument function is modelled as explicit
  state passing: the cache is an `Option Settings` threaded through calls;
  an exception during construction leaves the cache empty (lru_cache does
  not cache raising calls).
* FastAPI side effects (mutating `response.status_code`, `logger.warning`)
  are made explicit in the returned outcome record.
-/

namespace AiEngine

/-! ## Configuration (`app/config.py`) -/

/-- The typed settings record, one field per declared field of
`class Settings(BaseSettings)` in `app/config.py` (lines 11-44).
Floats are modelled as rationals. -/
structure Settings where
  APP_NAME : String
  APP_VERSION : String
  DEBUG : Bool
  HOST : String
  PORT : Int
  LOG_LEVEL : String
  LOG_FORMAT : String
  INTERNAL_API_KEY : String
  VOLUMESCAN_MODEL_VERSION : String
  VOLUMESCAN_AUTO_ACCEPT_THRESHOLD : Rat
  VOLUMESCAN_MANUAL_THRESHOLD : Rat
  A4_WIDTH_MM : Rat
  A4_HEIGHT_MM : Rat
  DIMENSION_TOLERANCE_PERCENT : Rat
  deriving Repr, DecidableEq

/-- The process environment as pydantic `BaseSettings` sees it: for each
declared field, the raw string value of the environment variable of the same
name, or `none` when the variable is unset. -/
structure Env where
  APP_NAME : Option String := none
  APP_VERSION : Option String := none
  DEBUG : Option String := none
  HOST : Option String := none
  PORT : Option String := none
  LOG_LEVEL : Option String := none
  LOG_FORMAT : Option String := none
  INTERNAL_API_KEY : Option String := none
  VOLUMESCAN_MODEL_VERSION : Option String := none
  VOLUMESCAN_AUTO_ACCEPT_THRESHOLD : Option String := none
  VOLUMESCAN_MANUAL_THRESHOLD : Option String := none
  A4_WIDTH_MM : Option String := none
  A4_HEIGHT_MM : Option String := none
  DIMENSION_TOLERANCE_PERCENT : Option String := none
  deriving Repr, DecidableEq

/-- Value of a nonempty list of decimal digit characters. -/
def digitsVal (cs : List Char) : Nat :=
  cs.foldl (fun a c => 10 * a + (c.toNat - 48)) 0

/-- pydantic coercion of an environment string to `int`: an optional sign
followed by decimal digits, as `int(s)` accepts. -/
def parseIntEnv (s : String) : Option Int :=
  match s.data with
  | '-' :: r => if r ≠ [] ∧ r.all Char.isDigit then some (-(digitsVal r : Int)) else none
  | '+' :: r => if r ≠ [] ∧ r.all Char.isDigit then some ((digitsVal r : Int)) else none
  | r => if r ≠ [] ∧ r.all Char.isDigit then some ((digitsVal r : Int)) else none

/-- pydantic coercion of an environment string to `bool`: the documented
case-insensitive truthy/falsy literals; anything else fails coercion. -/
def parseBoolEnv (s : String) : Option Bool :=
  let t := s.toLower
  if t = "true" ∨ t = "t" ∨ t = "yes" ∨ t = "y" ∨ t = "on" ∨ t = "1" then some true
  else if t = "false" ∨ t = "f" ∨ t = "no" ∨ t = "n" ∨ t = "off" ∨ t = "0" then some false
  else none

/-- pydantic coercion of an environment string to `float`, for the finite
decimal literals relevant here: optional sign, then digits with an optional
decimal point (`"8"`, `"-3.25"`, `"1."`, `".5"`).  Exponent and
infinity/NaN spellings, which no claim exercises, are not modelled. -/
def parseRatEnv (s : String) : Option Rat :=
  let signed : Rat × List Char :=
    match s.data with
    | '-' :: r => (-1, r)
    | '+' :: r => (1, r)
    | r => (1, r)
  let sgn := signed.1
  let w := signed.2.takeWhile (fun c => c ≠ '.')
  match signed.2.dropWhile (fun c => c ≠ '.') with
  | [] =>
      if w ≠ [] ∧ w.all Char.isDigit then some (sgn * (digitsVal w : Rat))
      else none
  | _ :: f =>
      if '.' ∈ f then none
      else if (w ≠ [] ∨ f ≠ []) ∧ w.all Char.isDigit ∧ f.all Char.isDigit then
        some (sgn * ((digitsVal w : Rat) + (digitsVal f : Rat) / (10 : Rat) ^ f.length))
      else none

/-- The validation failure pydantic raises at `Settings()` when an
environment value cannot be coerced to its declared field type; the spec
names it ConfigValidationError.  Carries the names of the offending
fields, as pydantic collects every failing field into one error. -/
structure ConfigValidationError where
  fields : List String
  deriving Repr, DecidableEq

/-- Coercion check for one optional environment value: an unset variable is
fine (the default applies); a set variable must parse. -/
def fieldError {α : Type} (name : String) (parse : String → Option α) :
    Option String → List String
  | none => []
  | some v => match parse v with
    | some _ => []
    | none => [name]

/-- All coercion failures of an environment, in field declaration order.
String-typed fields accept any string, so only the `bool`, `int` and
`float` fields of `Settings` can fail. -/
def fieldErrors (env : Env) : List String :=
  fieldError "DEBUG" parseBoolEnv env.DEBUG ++
  fieldError "PORT" parseIntEnv env.PORT ++
  fieldError "VOLUMESCAN_AUTO_ACCEPT_THRESHOLD" parseRatEnv env.VOLUMESCAN_AUTO_ACCEPT_THRESHOLD ++
  fieldError "VOLUMESCAN_MANUAL_THRESHOLD" parseRatEnv env.VOLUMESCAN_MANUAL_THRESHOLD ++
  fieldError "A4_WIDTH_MM" parseRatEnv env.A4_WIDTH_MM ++
  fieldError "A4_HEIGHT_MM" parseRatEnv env.A4_HEIGHT_MM ++
  fieldError "DIMENSION_TOLERANCE_PERCENT" parseRatEnv env.DIMENSION_TOLERANCE_PERCENT

/-- One field's value: the parsed environment value when the variable is
set, the declared default otherwise.  (Only reached when coercion
succeeded; `getD` supplies the default in the unreachable branch.) -/
def fieldValue {α : Type} (dflt : α) (parse : String → Option α) :
    Option String → α
  | none => dflt
  | some v => (parse v).getD dflt

/-- `Settings()` — pydantic construction from the environment with the
declared defaults of `config.py` lines 15-40: validates every field, raises
(returns `Except.error`) when any value cannot be coerced, otherwise
produces the settings record. -/
def Settings.build (env : Env) : Except ConfigValidationError Settings :=
  match fieldErrors env with
  | e :: es => .error ⟨e :: es⟩
  | [] => .ok {
      APP_NAME := env.APP_NAME.getD "translogistics-ai-engine"
      APP_VERSION := env.APP_VERSION.getD "0.1.0"
      DEBUG := fieldValue false parseBoolEnv env.DEBUG
      HOST := env.HOST.getD "0.0.0.0"
      PORT := fieldValue 8000 parseIntEnv env.PORT
      LOG_LEVEL := env.LOG_LEVEL.getD "INFO"
      LOG_FORMAT := env.LOG_FORMAT.getD "json"
      INTERNAL_API_KEY := env.INTERNAL_API_KEY.getD "dev-internal-key"
      VOLUMESCAN_MODEL_VERSION := env.VOLUMESCAN_MODEL_VERSION.getD "v0.1.0"
      VOLUMESCAN_AUTO_ACCEPT_THRESHOLD :=
        fieldValue (85 / 100) parseRatEnv env.VOLUMESCAN_AUTO_ACCEPT_THRESHOLD
      VOLUMESCAN_MANUAL_THRESHOLD :=
        fieldValue (60 / 100) parseRatEnv env.VOLUMESCAN_MANUAL_THRESHOLD
      A4_WIDTH_MM := fieldValue 210 parseRatEnv env.A4_WIDTH_MM
      A4_HEIGHT_MM := fieldValue 297 parseRatEnv env.A4_HEIGHT_MM
      DIMENSION_TOLERANCE_PERCENT :=
        fieldValue 10 parseRatEnv env.DIMENSION_TOLERANCE_PERCENT }

/-- `get_settings()` under its `@lru_cache()` decorator, as an explicit
state transition.  The cache state is `Option Settings`; a hit returns the
cached instance without touching the environment, a miss calls
`Settings()` and caches only a successful result (`lru_cache` does not
cache calls that raise). -/
def get_settings (env : Env) (cache : Option Settings) :
    Except ConfigValidationError Settings × Option Settings :=
  match cache with
  | some s => (.ok s, some s)
  | none =>
    match Settings.build env with
    | .ok s => (.ok s, some s)
    | .error e => (.error e, none)

/-! ## Health probes (`app/routers/health.py`) -/

/-- Python `round` to the nearest integer: round-half-to-even (banker's
rounding), here on exact rationals. -/
def roundHalfEven (x : Rat) : Int :=
  if x - (⌊x⌋ : Rat) < 1 / 2 then ⌊x⌋
  else if 1 / 2 < x - (⌊x⌋ : Rat) then ⌊x⌋ + 1
  else if 2 ∣ ⌊x⌋ then ⌊x⌋ else ⌊x⌋ + 1

/-- Python `round(x, 2)`: round-half-to-even to a multiple of 1/100. -/
def round2 (x : Rat) : Rat := (roundHalfEven (100 * x) : Rat) / 100

/-- `HealthResponse` of `health.py` lines 23-30.  The `status` literal set
is `ok | degraded | unhealthy`; the embedding keeps it as a string, as the
claims compare against string literals. -/
structure HealthResponse where
  status : String
  service : String
  version : String
  uptime_seconds : Rat
  model_version : String
  deriving Repr, DecidableEq

/-- `LivenessResponse` of `health.py` lines 33-36. -/
structure LivenessResponse where
  status : String
  deriving Repr, DecidableEq

/-- `ReadinessResponse` of `health.py` lines 39-43; the check map is an
ordered association list, as Python dicts preserve insertion order. -/
structure ReadinessResponse where
  status : String
  checks : List (String × Bool)
  deriving Repr, DecidableEq

/-- `health_check` (`health.py` lines 46-65): parameters make the two
implicit inputs explicit — the settings instance `get_settings()` returns,
and the two clock readings `START_TIME` (module load) and `time.time()`
(call time). -/
def health_check (settings : Settings) (now startTime : Rat) : HealthResponse :=
  { status := "ok"
    service := settings.APP_NAME
    version := settings.APP_VERSION
    uptime_seconds := round2 (now - startTime)
    model_version := settings.VOLUMESCAN_MODEL_VERSION }

/-- `liveness_probe` (`health.py` lines 68-76): takes nothing — it reads no
settings, registry or external resource — and returns the constant `ok`. -/
def liveness_probe : LivenessResponse := { status := "ok" }

/-- A structured log event as emitted by `logger.warning(msg, checks=...)`:
severity, message, and the attached check map. -/
structure LogEvent where
  level : String
  event : String
  checks : List (String × Bool)
  deriving Repr, DecidableEq

/-- Everything observable about one `readiness_probe` call: the response
body, the HTTP status code after the call (FastAPI starts it at the success
default and the handler may overwrite it), and the log events emitted. -/
structure ReadinessOutcome where
  response : ReadinessResponse
  statusCode : Nat
  logs : List LogEvent
  deriving Repr, DecidableEq

/-- The check map `readiness_probe` builds (`health.py` lines 91-93): the
single placeholder check, always true until real model loading exists. -/
def readiness_checks : List (String × Bool) := [("model_loaded", true)]

/-- The body of `readiness_probe` (`health.py` lines 95-104) as a function
of the check map it evaluates and of the response's incoming status code:
`all_ready = all(checks.values())`; when not all ready the handler sets
`response.status_code = 503` and logs one warning carrying the full check
map; the returned body always carries the full check map. -/
def readiness_probe (checks : List (String × Bool)) (statusCode : Nat) :
    ReadinessOutcome :=
  let all_ready := checks.all (fun c => c.2)
  if all_ready then
    { response := { status := "ready", checks := checks }
      statusCode := statusCode
      logs := [] }
  else
    { response := { status := "not_ready", checks := checks }
      statusCode := 503
      logs := [{ level := "warning", event := "Readiness check failed", checks := checks }] }

/-! ## Structured logging (`app/utils/logger.py`)

`setup_logging` (lines 18-50) builds the processor pipeline from
`settings.LOG_FORMAT`: the shared processors attach the severity level and
an ISO timestamp to the event record, then the branch on
`LOG_FORMAT == "console"` selects either the colorized console renderer or
`format_exc_info` followed by the JSON renderer.  The renderers themselves
are structlog library code; their record-level behaviour is modelled from
the spec: JSON mode serializes each record as one flat JSON object, console
mode produces a color-coded human-oriented line (ANSI color sequences begin
with the escape character U+001B). -/

/-- Left brace character (written by code point to keep it out of string
literals). -/
def lbrace : Char := Char.ofNat 123

/-- Right brace character. -/
def rbrace : Char := Char.ofNat 125

/-- The ANSI escape character U+001B that starts every color sequence. -/
def ansiEsc : Char := Char.ofNat 27

/-- The two rendering pipelines `setup_logging` can install. -/
inductive Renderer
  | console
  | json
  deriving Repr, DecidableEq

/-- The branch of `setup_logging` (lines 30-40): exact string match of the
configured `LOG_FORMAT` against `"console"`; every other value gets the
JSON pipeline. -/
def setup_logging_renderer (LOG_FORMAT : String) : Renderer :=
  if LOG_FORMAT = "console" then .console else .json

/-- The shared processors (`add_log_level`, `TimeStamper`) applied to one
event: the record reaching the renderer holds the caller's context fields
and the `event` message, plus `level` and `timestamp`. -/
def processRecord (level ts event : String) (ctx : List (String × String)) :
    List (String × String) :=
  ctx ++ [("event", event), ("level", level), ("timestamp", ts)]

/-- `structlog.processors.format_exc_info`, applied only on the JSON
branch: when exception info is present it is flattened into a text field of
the record; otherwise the record is untouched. -/
def format_exc_info (excText : Option String) (r : List (String × String)) :
    List (String × String) :=
  match excText with
  | none => r
  | some t => r ++ [("exception", t)]

/-- The record the JSON renderer receives for one event. -/
def logRecord (level ts event : String) (ctx : List (String × String))
    (excText : Option String) : List (String × String) :=
  format_exc_info excText (processRecord level ts event ctx)

/-- JSON string-escaping of one character (the escapes `json.dumps` uses
for the characters our parser handles). -/
def escapeJChar (c : Char) : List Char :=
  if c = '"' then ['\\', '"']
  else if c = '\\' then ['\\', '\\']
  else if c = '\n' then ['\\', 'n']
  else if c = '\r' then ['\\', 'r']
  else if c = '\t' then ['\\', 't']
  else [c]

/-- JSON string-escaping of a character sequence. -/
def escapeJ : List Char → List Char
  | [] => []
  | c :: cs => escapeJChar c ++ escapeJ cs

/-- One `"key": "value"` entry as `json.dumps` prints it (separator
`: `). -/
def entryChars (p : String × String) : List Char :=
  '"' :: (escapeJ p.1.data ++ '"' :: ':' :: ' ' :: '"' :: (escapeJ p.2.data ++ ['"']))

/-- The comma-separated entry list of a JSON object (separator `, `). -/
def pairsChars : List (String × String) → List Char
  | [] => []
  | [p] => entryChars p
  | p :: ps => entryChars p ++ ',' :: ' ' :: pairsChars ps

/-- Modelled from the spec: the structlog `JSONRenderer` — "each record
serialized as a flat JSON object", one object per line, in `json.dumps`
format with default separators. -/
def jsonRender (r : List (String × String)) : String :=
  String.mk (lbrace :: (pairsChars r ++ [rbrace]))

/-- A `key=value` context suffix of the console line. -/
def consoleCtxChars : List (String × String) → List Char
  | [] => []
  | p :: ps => ' ' :: (p.1.data ++ '=' :: (p.2.data ++ consoleCtxChars ps))

/-- Modelled from the spec: the structlog `ConsoleRenderer(colors=True)` —
"color-coded, human-oriented single-line rendering": a dimmed timestamp,
the bracketed level, the event message and the context fields.  Every ANSI
color sequence begins with the escape character, so the line's first
character is U+001B. -/
def consoleRender (level ts event : String) (ctx : List (String × String)) :
    String :=
  String.mk (ansiEsc :: '[' :: '2' :: 'm' ::
    (ts.data ++ ansiEsc :: '[' :: '0' :: 'm' :: ' ' :: '[' ::
      (level.data ++ ']' :: ' ' :: (event.data ++ consoleCtxChars ctx))))

/-- One event rendered through the pipeline `setup_logging` installs for
the given `LOG_FORMAT`: the shared processors build the record, then the
selected renderer turns it into the emitted line (`format_exc_info` runs
only on the JSON branch, as in `setup_logging`). -/
def renderLine (LOG_FORMAT level ts event : String)
    (ctx : List (String × String)) (excText : Option String) : String :=
  match setup_logging_renderer LOG_FORMAT with
  | .console => consoleRender level ts event ctx
  | .json => jsonRender (logRecord level ts event ctx excText)

/-! ### A sound JSON-object recognizer

`parseFlatJson` accepts a subset of JSON: a single flat object of string
keys and string values in `json.dumps` canonical spacing.  Everything it
accepts is valid JSON, so acceptance proves an emitted line is a JSON
object.  For the converse (console lines are *not* JSON), `canBeginJson`
is a necessary condition on the first character of any valid JSON text:
optional whitespace followed by a value starting with a brace, bracket,
quote, digit, sign or literal. -/

/-- Characters that may begin a valid JSON text (a value's first character,
or leading whitespace). -/
def canBeginJson (c : Char) : Bool :=
  c = lbrace ∨ c = '[' ∨ c = '"' ∨ c = '-' ∨ c.isDigit ∨
  c = 't' ∨ c = 'f' ∨ c = 'n' ∨ c.isWhitespace

/-- Parse a JSON string body (opening quote already consumed) up to its
closing quote, undoing the escapes `escapeJChar` produces and rejecting
raw control characters, as JSON requires. -/
def parseJStringAux (acc : List Char) : List Char → Option (String × List Char)
  | [] => none
  | c :: rest =>
    if c = '"' then some (String.mk acc, rest)
    else if c = '\\' then
      match rest with
      | [] => none
      | d :: rest2 =>
        if d = '"' ∨ d = '\\' then parseJStringAux (acc ++ [d]) rest2
        else if d = 'n' then parseJStringAux (acc ++ ['\n']) rest2
        else if d = 'r' then parseJStringAux (acc ++ ['\r']) rest2
        else if d = 't' then parseJStringAux (acc ++ ['\t']) rest2
        else none
    else if c.toNat < 32 then none
    else parseJStringAux (acc ++ [c]) rest

/-- Parse the comma-separated `"key": "value"` entries of a flat object
(fuel bounds the entry count). -/
def parseEntriesAux : Nat → List Char → Option (List (String × String) × List Char)
  | 0, _ => none
  | fuel + 1, cs =>
    match cs with
    | '"' :: rest =>
      match parseJStringAux [] rest with
      | none => none
      | some (k, rest2) =>
        match rest2 with
        | ':' :: ' ' :: '"' :: rest3 =>
          match parseJStringAux [] rest3 with
          | none => none
          | some (v, rest4) =>
            match rest4 with
            | ',' :: ' ' :: rest5 =>
                (parseEntriesAux fuel rest5).map (fun pr => ((k, v) :: pr.1, pr.2))
            | _ => some ([(k, v)], rest4)
        | _ => none
    | _ => none

/-- Recognize a complete line as a single flat JSON object of string keys
and string values, returning its entries. -/
def parseFlatJson (s : String) : Option (List (String × String)) :=
  match s.data with
  | [] => none
  | c :: rest =>
    if c = lbrace then
      if rest = [rbrace] then some []
      else
        match parseEntriesAux (rest.length + 1) rest with
        | some (ps, [d]) => if d = rbrace then some ps else none
        | _ => none
    else none

/-! ## Shared concrete instances -/

/-- The settings record `Settings()` produces when no environment variable
is set: every field takes its declared default from `config.py`. -/
def defaultSettings : Settings :=
  { APP_NAME := "translogistics-ai-engine"
    APP_VERSION := "0.1.0"
    DEBUG := false
    HOST := "0.0.0.0"
    PORT := 8000
    LOG_LEVEL := "INFO"
    LOG_FORMAT := "json"
    INTERNAL_API_KEY := "dev-internal-key"
    VOLUMESCAN_MODEL_VERSION := "v0.1.0"
    VOLUMESCAN_AUTO_ACCEPT_THRESHOLD := 85 / 100
    VOLUMESCAN_MANUAL_THRESHOLD := 60 / 100
    A4_WIDTH_MM := 210
    A4_HEIGHT_MM := 297
    DIMENSION_TOLERANCE_PERCENT := 10 }

/-- An environment setting the auto-accept threshold to 1.5, outside the
claimed [0,1] range. -/
def envBadThreshold : Env := { VOLUMESCAN_AUTO_ACCEPT_THRESHOLD := some "1.5" }

/-- The settings instance that environment produces: defaults everywhere
except the out-of-range threshold. -/
def badThresholdSettings : Settings :=
  { defaultSettings with VOLUMESCAN_AUTO_ACCEPT_THRESHOLD := 3 / 2 }

/-- A character that JSON renders as itself: not a quote, not a backslash,
not a control character.  Records whose strings consist of such characters
are rendered and recognized verbatim. -/
def plainChar (c : Char) : Bool :=
  c ≠ '"' && c ≠ '\\' && decide (32 ≤ c.toNat)

/-- A string of plain characters. -/
def plainString (s : String) : Bool := s.data.all plainChar

/-- Every key and value of a record is a plain string. -/
def plainRecord (r : List (String × String)) : Bool :=
  r.all fun p => plainString p.1 && plainString p.2

/-! ## Theorems -/

/-- C1: for every check map the readiness operation evaluates,
`readiness_probe` reports status `ready` iff every boolean entry of the map
is true (fail-closed AND), the only other possible status is `not_ready`,
and the response body preserves the full per-check map. -/
theorem readiness_ready_iff_all_checks (checks : List (String × Bool)) (code : Nat) :
    ((readiness_probe checks code).response.status = "ready" ↔
      ∀ p ∈ checks, p.2 = true) ∧
    ((readiness_probe checks code).response.status = "ready" ∨
      (readiness_probe checks code).response.status = "not_ready") ∧
    (readiness_probe checks code).response.checks = checks := by
  have hiff : ((checks.all fun c => c.2) = true) ↔ ∀ p ∈ checks, p.2 = true :=
    List.all_eq_true
  by_cases h : (checks.all fun c => c.2) = true
  · have hr : readiness_probe checks code =
        { response := { status := "ready", checks := checks }
          statusCode := code, logs := [] } := by
      simp only [readiness_probe, if_pos h]
    rw [hr]
    exact ⟨⟨fun _ => hiff.mp h, fun _ => rfl⟩, Or.inl rfl, rfl⟩
  · have hr : readiness_probe checks code =
        { response := { status := "not_ready", checks := checks }
          statusCode := 503
          logs := [{ level := "warning", event := "Readiness check failed",
                     checks := checks }] } := by
      simp only [readiness_probe, if_neg h]
    rw [hr]
    exact ⟨⟨fun habs => absurd habs (by simp), fun hall => absurd (hiff.mpr hall) h⟩,
      Or.inr rfl, rfl⟩

/-- Witness for C1 at the spec's example map: one true and one false check
yield `not_ready` with both entries preserved. -/
theorem readiness_ready_iff_all_checks_witness :
    (readiness_probe [("a", true), ("b", false)] 200).response.status = "not_ready" ∧
    (readiness_probe [("a", true), ("b", false)] 200).response.checks =
      [("a", true), ("b", false)] := by
  have h := readiness_ready_iff_all_checks [("a", true), ("b", false)] 200
  refine ⟨?_, h.2.2⟩
  rcases h.2.1 with he | hn
  · exact absurd (h.1.mp he ("b", false) (by simp)) (by decide)
  · exact hn

/-- C5: `liveness_probe` takes no input at all — no settings, no check
registry, no external resource — and returns exactly the constant record
with status `ok`, whatever state the readiness checks are in. -/
theorem liveness_always_ok : liveness_probe = { status := "ok" } := rfl

/-- C6: when not every check passes, `readiness_probe` emits exactly one
warning log event carrying the full check map and sets the HTTP status
code to 503; when all checks pass it logs nothing and leaves the incoming
success code unchanged. -/
theorem readiness_side_effects (checks : List (String × Bool)) (code : Nat) :
    (¬ (∀ p ∈ checks, p.2 = true) →
      (readiness_probe checks code).logs =
        [{ level := "warning", event := "Readiness check failed", checks := checks }] ∧
      (readiness_probe checks code).statusCode = 503) ∧
    ((∀ p ∈ checks, p.2 = true) →
      (readiness_probe checks code).logs = [] ∧
      (readiness_probe checks code).statusCode = code) := by
  have hiff : ((checks.all fun c => c.2) = true) ↔ ∀ p ∈ checks, p.2 = true :=
    List.all_eq_true
  by_cases h : (checks.all fun c => c.2) = true
  · have hr : readiness_probe checks code =
        { response := { status := "ready", checks := checks }
          statusCode := code, logs := [] } := by
      simp only [readiness_probe, if_pos h]
    rw [hr]
    exact ⟨fun hnot => absurd (hiff.mp h) hnot, fun _ => ⟨rfl, rfl⟩⟩
  · have hr : readiness_probe checks code =
        { response := { status := "not_ready", checks := checks }
          statusCode := 503
          logs := [{ level := "warning", event := "Readiness check failed",
                     checks := checks }] } := by
      simp only [readiness_probe, if_neg h]
    rw [hr]
    exact ⟨fun _ => ⟨rfl, rfl⟩, fun hall => absurd (hiff.mpr hall) h⟩

/-- Witness for C6 on a failing check map: one warning with the map, and
status code 503 in place of the incoming 200. -/
theorem readiness_side_effects_witness :
    (readiness_probe [("model_loaded", false)] 200).logs =
      [{ level := "warning", event := "Readiness check failed",
         checks := [("model_loaded", false)] }] ∧
    (readiness_probe [("model_loaded", false)] 200).statusCode = 503 :=
  (readiness_side_effects [("model_loaded", false)] 200).1 (by decide)

/-- C2: once a first `get_settings` call succeeds, the cache holds that
instance, and a second call returns the identical cached instance without
reconstructing — its result does not depend on the environment it runs
under, so the snapshot survives later environment changes. -/
theorem get_settings_returns_cached_instance (env1 env2 : Env) (s : Settings)
    (h : (get_settings env1 none).1 = .ok s) :
    (get_settings env1 none).2 = some s ∧
    get_settings env2 (get_settings env1 none).2 = (.ok s, some s) := by
  cases hb : Settings.build env1 with
  | ok t =>
      have ht : t = s := by
        simpa [get_settings, hb] using h
      subst ht
      simp [get_settings, hb]
  | error e =>
      simp [get_settings, hb] at h

/-- Witness for C2: first call on the empty environment caches the default
settings; the second call, under a changed environment, still returns
them. -/
theorem get_settings_returns_cached_instance_witness :
    (get_settings {} none).2 = some defaultSettings ∧
    get_settings { APP_NAME := some "changed" } (get_settings {} none).2 =
      (.ok defaultSettings, some defaultSettings) :=
  get_settings_returns_cached_instance {} { APP_NAME := some "changed" }
    defaultSettings rfl

/-- C3: whenever any environment value fails coercion to its declared
numeric or boolean type (`fieldErrors env` nonempty — e.g. a non-numeric
PORT, which always lands in the error's field list), `get_settings` fails
with the ConfigValidationError listing the failing fields, leaves the
cache empty, and a subsequent call behaves exactly like a fresh first call
(construction is re-attempted, nothing was cached). -/
theorem get_settings_invalid (env env2 : Env) (hbad : fieldErrors env ≠ []) :
    get_settings env none = (.error ⟨fieldErrors env⟩, none) ∧
    get_settings env2 (get_settings env none).2 = get_settings env2 none ∧
    (∀ p, env.PORT = some p → parseIntEnv p = none → "PORT" ∈ fieldErrors env) := by
  cases hfe : fieldErrors env with
  | nil => exact absurd hfe hbad
  | cons e es =>
      have hbuild : Settings.build env = .error ⟨e :: es⟩ := by
        simp [Settings.build, hfe]
      refine ⟨by simp [get_settings, hbuild, hfe], by simp [get_settings, hbuild], ?_⟩
      intro p hp hbadp
      rw [show (e :: es : List String) = fieldErrors env from hfe.symm]
      simp [fieldErrors, fieldError, hp, hbadp]

/-- Witness for C3: PORT set to the non-numeric string `abc` fails with
the error naming PORT, caches nothing, and the follow-up call on the empty
environment behaves as a fresh construction. -/
theorem get_settings_invalid_witness :
    get_settings { PORT := some "abc" } none =
      (.error ⟨["PORT"]⟩, none) ∧
    get_settings {} (get_settings { PORT := some "abc" } none).2 =
      get_settings {} none ∧
    "PORT" ∈ fieldErrors { PORT := some "abc" } := by
  have h := get_settings_invalid { PORT := some "abc" } {} (by decide)
  exact ⟨h.1.trans rfl, h.2.1, h.2.2 "abc" rfl (by decide)⟩

/-- The floor is a lower bound for round-half-even. -/
theorem floor_le_roundHalfEven (x : Rat) : ⌊x⌋ ≤ roundHalfEven x := by
  unfold roundHalfEven
  split_ifs <;> omega

/-- Round-half-even never exceeds the floor plus one. -/
theorem roundHalfEven_le_floor_add_one (x : Rat) : roundHalfEven x ≤ ⌊x⌋ + 1 := by
  unfold roundHalfEven
  split_ifs <;> omega

/-- Round-half-even is monotone. -/
theorem roundHalfEven_mono {x y : Rat} (hxy : x ≤ y) :
    roundHalfEven x ≤ roundHalfEven y := by
  have hf : ⌊x⌋ ≤ ⌊y⌋ := Int.floor_le_floor hxy
  rcases lt_or_eq_of_le hf with hlt | heq
  · calc roundHalfEven x ≤ ⌊x⌋ + 1 := roundHalfEven_le_floor_add_one x
      _ ≤ ⌊y⌋ := by omega
      _ ≤ roundHalfEven y := floor_le_roundHalfEven y
  · have hfx : (⌊x⌋ : Rat) ≤ x := Int.floor_le x
    have hfy : (⌊y⌋ : Rat) ≤ y := Int.floor_le y
    unfold roundHalfEven
    rw [← heq]
    have hxy2 : x - (⌊x⌋ : Rat) ≤ y - (⌊x⌋ : Rat) := by linarith
    split_ifs <;> first | omega | linarith

/-- `round(x, 2)` is monotone. -/
theorem round2_mono {x y : Rat} (hxy : x ≤ y) : round2 x ≤ round2 y := by
  unfold round2
  have h : roundHalfEven (100 * x) ≤ roundHalfEven (100 * y) :=
    roundHalfEven_mono (by linarith)
  have h2 : (roundHalfEven (100 * x) : Rat) ≤ (roundHalfEven (100 * y) : Rat) := by
    exact_mod_cast h
  linarith

/-- Round-half-even fixes the integers. -/
theorem roundHalfEven_intCast (n : Int) : roundHalfEven ((n : Int) : Rat) = n := by
  unfold roundHalfEven
  rw [Int.floor_intCast]
  norm_num

/-- `round(x, 2)` fixes the integers. -/
theorem round2_intCast (n : Int) : round2 ((n : Int) : Rat) = (n : Rat) := by
  unfold round2
  have h : (100 : Rat) * ((n : Int) : Rat) = (((100 * n : Int) : Int) : Rat) := by
    push_cast
    ring
  rw [h, roundHalfEven_intCast]
  push_cast
  ring

/-- `round(0, 2) = 0`. -/
theorem round2_zero : round2 (0 : Rat) = 0 := by
  have h := round2_intCast 0
  simpa using h

/-- C4: on every invocation, `health_check` reports status `ok`, uptime
equal to the elapsed time `now - START_TIME` rounded (half-to-even) to two
decimal places, and the service name, version and model version copied
verbatim from the settings fields; and any settings built with those three
environment variables unset carry the default values
`translogistics-ai-engine`, `0.1.0` and `v0.1.0`. -/
theorem health_check_contents (s : Settings) (now startTime : Rat) :
    (health_check s now startTime).status = "ok" ∧
    (health_check s now startTime).service = s.APP_NAME ∧
    (health_check s now startTime).version = s.APP_VERSION ∧
    (health_check s now startTime).uptime_seconds = round2 (now - startTime) ∧
    (health_check s now startTime).model_version = s.VOLUMESCAN_MODEL_VERSION ∧
    (∀ (env : Env) (t : Settings), env.APP_NAME = none → env.APP_VERSION = none →
      env.VOLUMESCAN_MODEL_VERSION = none → Settings.build env = .ok t →
      (health_check t now startTime).service = "translogistics-ai-engine" ∧
      (health_check t now startTime).version = "0.1.0" ∧
      (health_check t now startTime).model_version = "v0.1.0") := by
  refine ⟨rfl, rfl, rfl, rfl, rfl, ?_⟩
  intro env t hn hv hm hb
  cases hfe : fieldErrors env with
  | cons e es => simp [Settings.build, hfe] at hb
  | nil =>
      have hbuild : Settings.build env =
          Except.ok { APP_NAME := env.APP_NAME.getD "translogistics-ai-engine"
                      APP_VERSION := env.APP_VERSION.getD "0.1.0"
                      DEBUG := fieldValue false parseBoolEnv env.DEBUG
                      HOST := env.HOST.getD "0.0.0.0"
                      PORT := fieldValue 8000 parseIntEnv env.PORT
                      LOG_LEVEL := env.LOG_LEVEL.getD "INFO"
                      LOG_FORMAT := env.LOG_FORMAT.getD "json"
                      INTERNAL_API_KEY := env.INTERNAL_API_KEY.getD "dev-internal-key"
                      VOLUMESCAN_MODEL_VERSION := env.VOLUMESCAN_MODEL_VERSION.getD "v0.1.0"
                      VOLUMESCAN_AUTO_ACCEPT_THRESHOLD :=
                        fieldValue (85 / 100) parseRatEnv env.VOLUMESCAN_AUTO_ACCEPT_THRESHOLD
                      VOLUMESCAN_MANUAL_THRESHOLD :=
                        fieldValue (60 / 100) parseRatEnv env.VOLUMESCAN_MANUAL_THRESHOLD
                      A4_WIDTH_MM := fieldValue 210 parseRatEnv env.A4_WIDTH_MM
                      A4_HEIGHT_MM := fieldValue 297 parseRatEnv env.A4_HEIGHT_MM
                      DIMENSION_TOLERANCE_PERCENT :=
                        fieldValue 10 parseRatEnv env.DIMENSION_TOLERANCE_PERCENT } := by
        simp [Settings.build, hfe]
      rw [hb] at hbuild
      have ht := (Except.ok.injEq _ _).mp hbuild
      subst ht
      rw [hn, hv, hm]
      exact ⟨rfl, rfl, rfl⟩

/-- Witness for C4: with every environment variable unset the settings
build succeeds, and `health_check` at `now = 5`, `START_TIME = 3` returns
`ok`, `translogistics-ai-engine`, `0.1.0`, `v0.1.0` and uptime 2.00. -/
theorem health_check_contents_witness :
    (health_check defaultSettings 5 3).status = "ok" ∧
    (health_check defaultSettings 5 3).service = "translogistics-ai-engine" ∧
    (health_check defaultSettings 5 3).version = "0.1.0" ∧
    (health_check defaultSettings 5 3).model_version = "v0.1.0" ∧
    (health_check defaultSettings 5 3).uptime_seconds = 2 := by
  have h := health_check_contents defaultSettings 5 3
  obtain ⟨h1, _, _, h4, _, h6⟩ := h
  obtain ⟨hs, hv, hm⟩ := h6 {} defaultSettings rfl rfl rfl rfl
  refine ⟨h1, hs, hv, hm, ?_⟩
  rw [h4]
  norm_num
  have h2 := round2_intCast 2
  simpa using h2

/-- C8: within one process lifetime (one `START_TIME`), the uptime
`health_check` reports is monotonically non-decreasing in the call time,
and a call at the instant of process start reports uptime 0. -/
theorem uptime_monotone_and_zero_at_start (s : Settings) (startTime t1 t2 : Rat)
    (h12 : t1 ≤ t2) :
    (health_check s t1 startTime).uptime_seconds ≤
      (health_check s t2 startTime).uptime_seconds ∧
    (health_check s startTime startTime).uptime_seconds = 0 := by
  constructor
  · exact round2_mono (by linarith)
  · show round2 (startTime - startTime) = 0
    rw [sub_self]
    exact round2_zero

/-- Witness for C8: concrete calls at times 3 and 4 after a start at 3
give non-decreasing uptimes, starting from 0. -/
theorem uptime_monotone_and_zero_at_start_witness :
    (health_check defaultSettings 3 3).uptime_seconds ≤
      (health_check defaultSettings 4 3).uptime_seconds ∧
    (health_check defaultSettings 3 3).uptime_seconds = 0 :=
  uptime_monotone_and_zero_at_start defaultSettings 3 3 4 (by decide)

/-- C9 counterexample: `Settings` performs no range validation on the
threshold fields — construction from the environment value `1.5` succeeds
and yields an instance whose auto-accept threshold lies outside [0,1],
refuting the claim that no such instance can be produced. -/
theorem threshold_out_of_range_constructible :
    Settings.build envBadThreshold = .ok badThresholdSettings ∧
    ¬ badThresholdSettings.VOLUMESCAN_AUTO_ACCEPT_THRESHOLD ≤ 1 := by
  constructor
  · have hfe : fieldErrors envBadThreshold = [] := rfl
    have hval : fieldValue (85 / 100 : Rat) parseRatEnv (some "1.5") = 3 / 2 := by
      show (parseRatEnv "1.5").getD (85 / 100 : Rat) = 3 / 2
      rw [show parseRatEnv "1.5" =
            some (1 * ((digitsVal ['1'] : Rat) +
              (digitsVal ['5'] : Rat) / (10 : Rat) ^ (1 : Nat))) from rfl]
      rw [show digitsVal ['1'] = 1 from rfl, show digitsVal ['5'] = 5 from rfl]
      push_cast
      norm_num
    have hb : Settings.build envBadThreshold =
        .ok { APP_NAME := "translogistics-ai-engine"
              APP_VERSION := "0.1.0"
              DEBUG := false
              HOST := "0.0.0.0"
              PORT := 8000
              LOG_LEVEL := "INFO"
              LOG_FORMAT := "json"
              INTERNAL_API_KEY := "dev-internal-key"
              VOLUMESCAN_MODEL_VERSION := "v0.1.0"
              VOLUMESCAN_AUTO_ACCEPT_THRESHOLD :=
                fieldValue (85 / 100) parseRatEnv (some "1.5")
              VOLUMESCAN_MANUAL_THRESHOLD := 60 / 100
              A4_WIDTH_MM := 210
              A4_HEIGHT_MM := 297
              DIMENSION_TOLERANCE_PERCENT := 10 } := by
      simp only [envBadThreshold] at hfe
      simp [Settings.build, hfe, envBadThreshold, fieldValue]
    rw [hval] at hb
    exact hb
  · show ¬ ((3 : Rat) / 2 ≤ 1)
    norm_num

/-- C9 amended: the threshold fields declare plain floats with no range
validator; the declared defaults (0.85 and 0.60) do lie in [0,1], so any
instance built with the two threshold variables unset satisfies the [0,1]
invariant, but an environment override is stored verbatim, in or out of
range. -/
theorem threshold_defaults_in_range (env : Env) (s : Settings) (v : Rat)
    (h1 : env.VOLUMESCAN_AUTO_ACCEPT_THRESHOLD = none)
    (h2 : env.VOLUMESCAN_MANUAL_THRESHOLD = none)
    (hb : Settings.build env = .ok s) :
    (0 ≤ s.VOLUMESCAN_AUTO_ACCEPT_THRESHOLD ∧ s.VOLUMESCAN_AUTO_ACCEPT_THRESHOLD ≤ 1 ∧
      0 ≤ s.VOLUMESCAN_MANUAL_THRESHOLD ∧ s.VOLUMESCAN_MANUAL_THRESHOLD ≤ 1) ∧
    (∀ env2 t, env2.VOLUMESCAN_AUTO_ACCEPT_THRESHOLD = some "1.5" →
      Settings.build env2 = .ok t → t.VOLUMESCAN_AUTO_ACCEPT_THRESHOLD = 3 / 2) ∧
    (v = 3 / 2 → ¬ v ≤ 1) := by
  refine ⟨?_, ?_, ?_⟩
  · cases hfe : fieldErrors env with
    | cons e es => simp [Settings.build, hfe] at hb
    | nil =>
        have hbuild : Settings.build env =
            Except.ok { APP_NAME := env.APP_NAME.getD "translogistics-ai-engine"
                        APP_VERSION := env.APP_VERSION.getD "0.1.0"
                        DEBUG := fieldValue false parseBoolEnv env.DEBUG
                        HOST := env.HOST.getD "0.0.0.0"
                        PORT := fieldValue 8000 parseIntEnv env.PORT
                        LOG_LEVEL := env.LOG_LEVEL.getD "INFO"
                        LOG_FORMAT := env.LOG_FORMAT.getD "json"
                        INTERNAL_API_KEY := env.INTERNAL_API_KEY.getD "dev-internal-key"
                        VOLUMESCAN_MODEL_VERSION := env.VOLUMESCAN_MODEL_VERSION.getD "v0.1.0"
                        VOLUMESCAN_AUTO_ACCEPT_THRESHOLD :=
                          fieldValue (85 / 100) parseRatEnv env.VOLUMESCAN_AUTO_ACCEPT_THRESHOLD
                        VOLUMESCAN_MANUAL_THRESHOLD :=
                          fieldValue (60 / 100) parseRatEnv env.VOLUMESCAN_MANUAL_THRESHOLD
                        A4_WIDTH_MM := fieldValue 210 parseRatEnv env.A4_WIDTH_MM
                        A4_HEIGHT_MM := fieldValue 297 parseRatEnv env.A4_HEIGHT_MM
                        DIMENSION_TOLERANCE_PERCENT :=
                          fieldValue 10 parseRatEnv env.DIMENSION_TOLERANCE_PERCENT } := by
          simp [Settings.build, hfe]
        rw [hb] at hbuild
        have ht := (Except.ok.injEq _ _).mp hbuild
        subst ht
        rw [h1, h2]
        refine ⟨by norm_num [fieldValue], by norm_num [fieldValue],
          by norm_num [fieldValue], by norm_num [fieldValue]⟩
  · intro env2 t h15 hb2
    cases hfe2 : fieldErrors env2 with
    | cons e es => simp [Settings.build, hfe2] at hb2
    | nil =>
        have hbuild2 : Settings.build env2 =
            Except.ok { APP_NAME := env2.APP_NAME.getD "translogistics-ai-engine"
                        APP_VERSION := env2.APP_VERSION.getD "0.1.0"
                        DEBUG := fieldValue false parseBoolEnv env2.DEBUG
                        HOST := env2.HOST.getD "0.0.0.0"
                        PORT := fieldValue 8000 parseIntEnv env2.PORT
                        LOG_LEVEL := env2.LOG_LEVEL.getD "INFO"
                        LOG_FORMAT := env2.LOG_FORMAT.getD "json"
                        INTERNAL_API_KEY := env2.INTERNAL_API_KEY.getD "dev-internal-key"
                        VOLUMESCAN_MODEL_VERSION := env2.VOLUMESCAN_MODEL_VERSION.getD "v0.1.0"
                        VOLUMESCAN_AUTO_ACCEPT_THRESHOLD :=
                          fieldValue (85 / 100) parseRatEnv env2.VOLUMESCAN_AUTO_ACCEPT_THRESHOLD
                        VOLUMESCAN_MANUAL_THRESHOLD :=
                          fieldValue (60 / 100) parseRatEnv env2.VOLUMESCAN_MANUAL_THRESHOLD
                        A4_WIDTH_MM := fieldValue 210 parseRatEnv env2.A4_WIDTH_MM
                        A4_HEIGHT_MM := fieldValue 297 parseRatEnv env2.A4_HEIGHT_MM
                        DIMENSION_TOLERANCE_PERCENT :=
                          fieldValue 10 parseRatEnv env2.DIMENSION_TOLERANCE_PERCENT } := by
          simp [Settings.build, hfe2]
        rw [hb2] at hbuild2
        have ht2 := (Except.ok.injEq _ _).mp hbuild2
        subst ht2
        rw [h15]
        show (parseRatEnv "1.5").getD (85 / 100 : Rat) = 3 / 2
        rw [show parseRatEnv "1.5" =
              some (1 * ((digitsVal ['1'] : Rat) +
                (digitsVal ['5'] : Rat) / (10 : Rat) ^ (1 : Nat))) from rfl]
        rw [show digitsVal ['1'] = 1 from rfl, show digitsVal ['5'] = 5 from rfl]
        push_cast
        norm_num
  · intro hv
    rw [hv]
    norm_num

/-- Witness for the amended C9: the default-built settings satisfy the
[0,1] range on both thresholds. -/
theorem threshold_defaults_in_range_witness :
    0 ≤ defaultSettings.VOLUMESCAN_AUTO_ACCEPT_THRESHOLD ∧
    defaultSettings.VOLUMESCAN_AUTO_ACCEPT_THRESHOLD ≤ 1 ∧
    0 ≤ defaultSettings.VOLUMESCAN_MANUAL_THRESHOLD ∧
    defaultSettings.VOLUMESCAN_MANUAL_THRESHOLD ≤ 1 :=
  (threshold_defaults_in_range {} defaultSettings (3 / 2) rfl rfl rfl).1

/-- C10: the three probe operations are insensitive to every settings
field other than APP_NAME, APP_VERSION and VOLUMESCAN_MODEL_VERSION:
two settings instances agreeing on those three fields produce identical
probe results at the same clock times, and liveness/readiness take no
settings input at all, so their outputs under the two instances coincide
trivially. -/
theorem probes_independent_of_secret_fields (s1 s2 : Settings)
    (now startTime : Rat) (checks : List (String × Bool)) (code : Nat)
    (hn : s1.APP_NAME = s2.APP_NAME) (hv : s1.APP_VERSION = s2.APP_VERSION)
    (hm : s1.VOLUMESCAN_MODEL_VERSION = s2.VOLUMESCAN_MODEL_VERSION) :
    health_check s1 now startTime = health_check s2 now startTime ∧
    liveness_probe = liveness_probe ∧
    readiness_probe checks code = readiness_probe checks code := by
  refine ⟨?_, rfl, rfl⟩
  unfold health_check
  rw [hn, hv, hm]

/-- Witness for C10: two instances differing in every non-identity field
(debug flag, port, API key, thresholds, dimensions, tolerance, log
settings) give the same `health_check` output. -/
theorem probes_independent_of_secret_fields_witness :
    health_check defaultSettings 5 3 =
      health_check { defaultSettings with
        DEBUG := true, HOST := "127.0.0.1", PORT := 9999
        LOG_LEVEL := "DEBUG", LOG_FORMAT := "console"
        INTERNAL_API_KEY := "other-secret"
        VOLUMESCAN_AUTO_ACCEPT_THRESHOLD := 99
        VOLUMESCAN_MANUAL_THRESHOLD := -1
        A4_WIDTH_MM := 1, A4_HEIGHT_MM := 2
        DIMENSION_TOLERANCE_PERCENT := 50 } 5 3 ∧
    liveness_probe = liveness_probe ∧
    readiness_probe readiness_checks 200 = readiness_probe readiness_checks 200 :=
  probes_independent_of_secret_fields defaultSettings
    { defaultSettings with
      DEBUG := true, HOST := "127.0.0.1", PORT := 9999
      LOG_LEVEL := "DEBUG", LOG_FORMAT := "console"
      INTERNAL_API_KEY := "other-secret"
      VOLUMESCAN_AUTO_ACCEPT_THRESHOLD := 99
      VOLUMESCAN_MANUAL_THRESHOLD := -1
      A4_WIDTH_MM := 1, A4_HEIGHT_MM := 2
      DIMENSION_TOLERANCE_PERCENT := 50 } 5 3 readiness_checks 200 rfl rfl rfl

/-- Rebuilding a string from its characters is the identity. -/
theorem string_mk_data (s : String) : String.mk s.data = s := rfl

/-- A plain character escapes to itself. -/
theorem escapeJChar_plain (c : Char) (h : plainChar c = true) : escapeJChar c = [c] := by
  have h' := h
  simp only [plainChar, Bool.and_eq_true, decide_eq_true_eq, ne_eq] at h'
  obtain ⟨⟨h1, h2⟩, h3⟩ := h'
  have hn : c ≠ '\n' := by intro e; rw [e] at h3; exact absurd h3 (by decide)
  have hr : c ≠ '\r' := by intro e; rw [e] at h3; exact absurd h3 (by decide)
  have ht : c ≠ '\t' := by intro e; rw [e] at h3; exact absurd h3 (by decide)
  simp [escapeJChar, h1, h2, hn, hr, ht]

/-- A list of plain characters escapes to itself. -/
theorem escapeJ_plain (cs : List Char) (h : cs.all plainChar = true) :
    escapeJ cs = cs := by
  induction cs with
  | nil => rfl
  | cons c cs ih =>
      rw [List.all_cons, Bool.and_eq_true] at h
      show escapeJChar c ++ escapeJ cs = c :: cs
      rw [escapeJChar_plain c h.1, ih h.2]
      rfl

/-- Parsing a rendered plain string body consumes it up to its closing
quote and returns it unchanged. -/
theorem parseJStringAux_plain (cs : List Char) :
    ∀ (acc rest : List Char), cs.all plainChar = true →
      parseJStringAux acc (cs ++ '"' :: rest) = some (String.mk (acc ++ cs), rest) := by
  induction cs with
  | nil =>
      intro acc rest _
      rw [parseJStringAux.eq_def]
      simp
  | cons c cs ih =>
      intro acc rest h
      rw [List.all_cons, Bool.and_eq_true] at h
      obtain ⟨hc, hcs⟩ := h
      have h' := hc
      simp only [plainChar, Bool.and_eq_true, decide_eq_true_eq, ne_eq] at h'
      obtain ⟨⟨h1, h2⟩, h3⟩ := h'
      have h4 : ¬ c.toNat < 32 := by omega
      show parseJStringAux acc (c :: (cs ++ '"' :: rest)) = _
      rw [parseJStringAux.eq_def]
      simp only [if_neg h1, if_neg h2, if_neg h4]
      rw [ih (acc ++ [c]) rest hcs]
      simp [List.append_assoc]

/-- The rendered entries of a nonempty plain record parse back to exactly
that record, stopping at a trailing one-character remainder. -/
theorem parseEntriesAux_pairsChars (r : List (String × String)) :
    ∀ (fuel : Nat) (d : Char), r ≠ [] → plainRecord r = true → r.length ≤ fuel →
      parseEntriesAux fuel (pairsChars r ++ [d]) = some (r, [d]) := by
  induction r with
  | nil => intro fuel d hne _ _; exact absurd rfl hne
  | cons p ps ih =>
      intro fuel d _ hok hlen
      cases fuel with
      | zero => simp at hlen
      | succ fuel =>
          rw [plainRecord, List.all_cons, Bool.and_eq_true] at hok
          obtain ⟨hp, hps⟩ := hok
          rw [Bool.and_eq_true] at hp
          obtain ⟨hk, hv⟩ := hp
          rw [plainString] at hk hv
          cases ps with
          | nil =>
              show parseEntriesAux (fuel + 1) (entryChars p ++ [d]) = _
              rw [entryChars]
              simp only [List.cons_append, List.append_assoc, List.singleton_append]
              rw [parseEntriesAux]
              rw [escapeJ_plain _ hk, escapeJ_plain _ hv]
              rw [parseJStringAux_plain p.1.data [] _ hk]
              simp only [List.nil_append, string_mk_data]
              rw [parseJStringAux_plain p.2.data [] _ hv]
              simp only [List.nil_append, string_mk_data]
          | cons q qs =>
              show parseEntriesAux (fuel + 1)
                ((entryChars p ++ ',' :: ' ' :: pairsChars (q :: qs)) ++ [d]) = _
              rw [entryChars]
              simp only [List.cons_append, List.append_assoc, List.singleton_append]
              rw [parseEntriesAux]
              rw [escapeJ_plain _ hk, escapeJ_plain _ hv]
              rw [parseJStringAux_plain p.1.data [] _ hk]
              simp only [List.nil_append, string_mk_data]
              rw [parseJStringAux_plain p.2.data [] _ hv]
              simp only [List.nil_append, string_mk_data]
              rw [ih fuel d (by simp) (by rw [plainRecord]; exact hps)
                (by simp only [List.length_cons] at hlen ⊢; omega)]
              simp

/-- The first rendered character of a nonempty entry list is a quote. -/
theorem pairsChars_cons_head (p : String × String) (ps : List (String × String)) :
    ∃ t, pairsChars (p :: ps) = '"' :: t := by
  cases ps with
  | nil => exact ⟨_, rfl⟩
  | cons q qs => exact ⟨_, rfl⟩

/-- The rendering of a record is at least as long as the record. -/
theorem length_le_pairsChars (r : List (String × String)) :
    r.length ≤ (pairsChars r).length := by
  induction r with
  | nil => simp [pairsChars]
  | cons p ps ih =>
      cases ps with
      | nil => simp [pairsChars, entryChars]
      | cons q qs =>
          have he : 1 ≤ (entryChars p).length := by simp [entryChars]
          show (q :: qs).length + 1 ≤
            (entryChars p ++ ',' :: ' ' :: pairsChars (q :: qs)).length
          simp only [List.length_append, List.length_cons] at ih ⊢
          omega

/-- A roundtrip: the JSON renderer's output for a nonempty plain record is
recognized as a flat JSON object holding exactly that record. -/
theorem parseFlatJson_jsonRender (r : List (String × String)) (hne : r ≠ [])
    (hok : plainRecord r = true) : parseFlatJson (jsonRender r) = some r := by
  obtain ⟨p, ps, rfl⟩ : ∃ p ps, r = p :: ps := by
    cases r with
    | nil => exact absurd rfl hne
    | cons p ps => exact ⟨p, ps, rfl⟩
  obtain ⟨t, ht⟩ := pairsChars_cons_head p ps
  have hq : ('"' : Char) ≠ rbrace := by decide
  have hne2 : pairsChars (p :: ps) ++ [rbrace] ≠ [rbrace] := by
    rw [ht]
    intro he
    rw [List.cons_append] at he
    exact hq (List.head_eq_of_cons_eq he)
  show parseFlatJson (String.mk (lbrace :: (pairsChars (p :: ps) ++ [rbrace]))) = _
  rw [parseFlatJson]
  simp only [if_pos rfl, if_neg hne2]
  rw [parseEntriesAux_pairsChars (p :: ps) _ rbrace (by simp)
    (by rw [plainRecord]; exact hok)
    (by
      have h1 := length_le_pairsChars (p :: ps)
      simp only [List.length_append, List.length_cons, List.length_nil] at h1 ⊢
      omega)]
  simp

/-- C7: `setup_logging` selects the rendering pipeline by exact match of
`LOG_FORMAT` against `console`.  With `console`, the emitted line comes
from the colorized console renderer: it begins with the ANSI escape
character, which no valid JSON text can begin with, and the flat-JSON
recognizer rejects it.  With `json` or any other value, the emitted line
parses as a single flat JSON object holding exactly the event record,
which contains the `level`, `timestamp` and `event` fields, plus a text
`exception` field whenever exception info is present.  (Stated for
records of plain text, the characters JSON represents verbatim.) -/
theorem setup_logging_console_vs_json
    (LOG_FORMAT level ts event : String) (ctx : List (String × String))
    (excText : Option String)
    (hl : plainString level = true) (hts : plainString ts = true)
    (hev : plainString event = true) (hctx : plainRecord ctx = true)
    (hexc : ∀ t, excText = some t → plainString t = true) :
    (LOG_FORMAT = "console" →
      (renderLine LOG_FORMAT level ts event ctx excText).data.head? = some ansiEsc ∧
      canBeginJson ansiEsc = false ∧
      parseFlatJson (renderLine LOG_FORMAT level ts event ctx excText) = none) ∧
    (LOG_FORMAT ≠ "console" →
      parseFlatJson (renderLine LOG_FORMAT level ts event ctx excText) =
        some (logRecord level ts event ctx excText) ∧
      ("level", level) ∈ logRecord level ts event ctx excText ∧
      ("timestamp", ts) ∈ logRecord level ts event ctx excText ∧
      ("event", event) ∈ logRecord level ts event ctx excText ∧
      (∀ t, excText = some t →
        ("exception", t) ∈ logRecord level ts event ctx excText)) := by
  constructor
  · intro hc
    subst hc
    have hr : renderLine "console" level ts event ctx excText =
        consoleRender level ts event ctx := by
      simp [renderLine, setup_logging_renderer]
    have hesc : ansiEsc ≠ lbrace := by decide
    refine ⟨by rw [hr]; rfl, by decide, ?_⟩
    rw [hr]
    show parseFlatJson (String.mk (ansiEsc :: _)) = none
    rw [parseFlatJson]
    simp [hesc]
  · intro hc
    have hr : renderLine LOG_FORMAT level ts event ctx excText =
        jsonRender (logRecord level ts event ctx excText) := by
      simp [renderLine, setup_logging_renderer, if_neg hc]
    have hne : logRecord level ts event ctx excText ≠ [] := by
      cases excText <;> simp [logRecord, processRecord, format_exc_info]
    have hokrec : plainRecord (logRecord level ts event ctx excText) = true := by
      cases hx : excText with
      | none =>
          simp only [logRecord, hx, format_exc_info, processRecord, plainRecord,
            List.all_append, List.all_cons, List.all_nil, Bool.and_eq_true,
            Bool.and_true]
          exact ⟨hctx, ⟨by decide, hev⟩, ⟨by decide, hl⟩, by decide, hts⟩
      | some t =>
          simp only [logRecord, hx, format_exc_info, processRecord, plainRecord,
            List.all_append, List.all_cons, List.all_nil, Bool.and_eq_true,
            Bool.and_true]
          exact ⟨⟨hctx, ⟨by decide, hev⟩, ⟨by decide, hl⟩, by decide, hts⟩,
            by decide, hexc t hx⟩
    refine ⟨by rw [hr]; exact parseFlatJson_jsonRender _ hne hokrec, ?_, ?_, ?_, ?_⟩
    · cases excText <;> simp [logRecord, processRecord, format_exc_info]
    · cases excText <;> simp [logRecord, processRecord, format_exc_info]
    · cases excText <;> simp [logRecord, processRecord, format_exc_info]
    · intro t hx
      rw [hx]
      simp [logRecord, processRecord, format_exc_info]

/-- Witness for C7, both branches at concrete events: a console line
starting with the ANSI escape is rejected by the JSON recognizer, while a
json-format line with an exception parses back to its full record with the
required fields. -/
theorem setup_logging_console_vs_json_witness :
    ((renderLine "console" "info" "2026-01-01T00:00:00" "hello" [("k", "v")]
        (some "boom")).data.head? = some ansiEsc ∧
      parseFlatJson (renderLine "console" "info" "2026-01-01T00:00:00" "hello"
        [("k", "v")] (some "boom")) = none) ∧
    (parseFlatJson (renderLine "json" "info" "2026-01-01T00:00:00" "hello"
        [("k", "v")] (some "boom")) =
      some (logRecord "info" "2026-01-01T00:00:00" "hello" [("k", "v")]
        (some "boom")) ∧
      ("level", "info") ∈ logRecord "info" "2026-01-01T00:00:00" "hello"
        [("k", "v")] (some "boom") ∧
      ("timestamp", "2026-01-01T00:00:00") ∈ logRecord "info"
        "2026-01-01T00:00:00" "hello" [("k", "v")] (some "boom") ∧
      ("event", "hello") ∈ logRecord "info" "2026-01-01T00:00:00" "hello"
        [("k", "v")] (some "boom") ∧
      ("exception", "boom") ∈ logRecord "info" "2026-01-01T00:00:00" "hello"
        [("k", "v")] (some "boom")) := by
  have hexc : ∀ t, (some "boom" : Option String) = some t → plainString t = true := by
    intro t ht
    cases ht
    decide
  have hc := (setup_logging_console_vs_json "console" "info" "2026-01-01T00:00:00"
    "hello" [("k", "v")] (some "boom") (by decide) (by decide) (by decide)
    (by decide) hexc).1 rfl
  have hj := (setup_logging_console_vs_json "json" "info" "2026-01-01T00:00:00"
    "hello" [("k", "v")] (some "boom") (by decide) (by decide) (by decide)
    (by decide) hexc).2 (by decide)
  exact ⟨⟨hc.1, hc.2.2⟩,
    hj.1, hj.2.1, hj.2.2.1, hj.2.2.2.1, hj.2.2.2.2 "boom" rfl⟩

end AiEngine
